import Mathlib

/-!
Shallow embedding of the Elo rating engine of `calculate_advanced_elo_aws.py`
(repository mlb-elo).  Python floats are modelled as real numbers.  The
external statsapi lookups (pitcher ERA, injured-list roster) are modelled as
an environment of already-resolved lookup outcomes, one per name, which also
subsumes the per-run lookup cache.  A pandas NaN score is modelled as `none`
(every NaN comparison is false, exactly as in the source's `hs > vs` tests).
Dates are abstracted to their year, the only component the rating loop
consults (`year = game_date.year`), with `none` standing for a missing or
unparseable date.
-/

/-- The thirty league team codes, `TEAM_ABBREV_MAP.values()` in the source. -/
def TEAM_ABBREVS : List String :=
  ["ARI", "ATL", "BAL", "BOS", "CHW", "CHC", "CIN", "CLE", "COL", "DET",
   "HOU", "KCR", "LAA", "LAD", "MIA", "MIL", "MIN", "NYY", "NYM", "OAK",
   "PHI", "PIT", "SDP", "SFG", "SEA", "STL", "TBR", "TEX", "TOR", "WSN"]

/-- Membership test `isin(TEAM_ABBREV_MAP.values())` used by the filters. -/
def isLeagueTeam (t : String) : Bool := TEAM_ABBREVS.contains t

/-- Source line 50: `base_k = 20`. -/
def base_k : ℝ := 20

/-- Source line 51: `home_field_advantage = 35`. -/
def home_field_advantage : ℝ := 35

/-- Source lines 53-54: `expected_score(r1, r2) = 1 / (1 + 10 ** ((r2 - r1) / 400))`. -/
noncomputable def expected_score (r1 r2 : ℝ) : ℝ :=
  1 / (1 + (10 : ℝ) ^ ((r2 - r1) / 400))

/-- Source lines 79-83: `update_elo(r1, r2, score_diff)` with the
margin-of-victory multiplier and the rating-gap dampening. -/
noncomputable def update_elo (r1 r2 score_diff : ℝ) : ℝ × ℝ :=
  let mov_multiplier := (|score_diff| + 1) ^ ((0.8 : ℝ)) / (7.5 + 0.006 * |r1 - r2|)
  let k := base_k * mov_multiplier
  let exp := expected_score r1 r2
  (r1 + k * (1 - exp), r2 - k * (1 - exp))

/-- Outcome of the statsapi pitcher-ERA lookup inside
`get_pitcher_era_adjustment` (lines 203-233): the player search can succeed
with an era field present or absent (`era` below is `none` when the stats
blob lacks the key, in which case the source defaults it to 4.5), come back
empty, or raise, in which case the source returns 0. -/
inductive EraLookup where
  | found (era : Option ℚ)
  | notFound
  | err

/-- Outcome of the statsapi injured-roster lookup inside `get_injury_penalty`
(lines 56-77): a resolved injured-list count, or any failure (unresolvable
abbreviation, API error), which the source maps to 0. -/
inductive ILLookup where
  | found (count : ℕ)
  | err

/-- ERA banding of `get_pitcher_era_adjustment`, lines 213-220:
`era <= 3.0 -> 15`, `elif era <= 4.0 -> 5`, `elif era >= 5.0 -> -10`,
`else 0`. -/
def eraAdj (era : ℚ) : ℤ :=
  if era ≤ 3 then 15 else if era ≤ 4 then 5 else if 5 ≤ era then -10 else 0

/-- Line 211: `era = float(stats['stats'][0]['stats'].get('era', 4.5))` —
a missing era field defaults to 4.5. -/
def eraValue : Option ℚ → ℚ
  | some e => e
  | none => 4.5

/-- Lines 203-233 of the source, as a function of the resolved lookup
outcome: empty search results and exceptions both yield 0. -/
def get_pitcher_era_adjustment : EraLookup → ℤ
  | EraLookup.found e => eraAdj (eraValue e)
  | EraLookup.notFound => 0
  | EraLookup.err => 0

/-- Lines 56-77 of the source, as a function of the resolved lookup outcome:
`-10 if il_count > 3 else 0`, any failure yields 0. -/
def get_injury_penalty : ILLookup → ℤ
  | ILLookup.found n => if 3 < n then -10 else 0
  | ILLookup.err => 0

/-- The external-provider environment of one run: resolved ERA lookups per
pitcher name and resolved injured-list lookups per team abbreviation.  A
per-run-constant function also models the source's `pitcher_era_cache`. -/
structure Env where
  eraLookup : String → EraLookup
  ilLookup : String → ILLookup

/-- One input game record of the loop (lines 175-193): year of the parsed
date (`none` for missing/unparseable), team codes, scores (`none` models a
NaN score cell), the `'pitchers'` free-text field and the `'injury_note'`
free-text field. -/
structure Game where
  date : Option ℤ
  home_team : String
  away_team : String
  home_score : Option ℤ
  away_score : Option ℤ
  pitchers : String
  injury_note : String

/-- One emitted row of `updated_rows` (lines 261-271). -/
structure Row where
  year : ℤ
  home_team : String
  away_team : String
  home_score : Option ℤ
  away_score : Option ℤ
  home_elo_post_raw : ℝ
  away_elo_post_raw : ℝ
  home_elo_post : ℝ
  away_elo_post : ℝ

/-- The ratings dictionary, modelled as an association list from team code to
current rating; `Ledger.get` is `ratings.get(t, 1500)` and `Ledger.set` is
dict assignment (replace if present, append otherwise). -/
abbrev Ledger := List (String × ℝ)

noncomputable def Ledger.get : Ledger → String → ℝ
  | [], _ => 1500
  | p :: ps, t => if p.1 == t then p.2 else Ledger.get ps t

noncomputable def Ledger.set : Ledger → String → ℝ → Ledger
  | [], t, x => [(t, x)]
  | p :: ps, t, x => if p.1 == t then (t, x) :: ps else p :: Ledger.set ps t x

def Ledger.hasKey : Ledger → String → Bool
  | [], _ => false
  | p :: ps, t => p.1 == t || Ledger.hasKey ps t

/-- Line 172: `ratings = {team: 1500 for team in TEAM_ABBREV_MAP.values()}`. -/
noncomputable def initRatings : Ledger :=
  TEAM_ABBREVS.map (fun t => (t, (1500 : ℝ)))

/-- Python `hs > vs` where either side may be NaN: a NaN comparison is
always false. -/
def scoreGT : Option ℤ → Option ℤ → Bool
  | some a, some b => decide (b < a)
  | _, _ => false

/-- Score differential `hs - vs`; only evaluated on branches where both
scores are present. -/
def optSub (a b : Option ℤ) : ℤ := a.getD 0 - b.getD 0

def listStarts : List Char → List Char → Bool
  | [], _ => true
  | _ :: _, [] => false
  | a :: as, b :: bs => a == b && listStarts as bs

def listContains (n : List Char) : List Char → Bool
  | [] => n.isEmpty
  | c :: t => listStarts n (c :: t) || listContains n t

/-- Python substring test `needle.lower() in haystack.lower()` (line 241
lowercases both the team code and the note before the test). -/
def strIn (needle haystack : String) : Bool :=
  listContains (needle.data.map Char.toLower) (haystack.data.map Char.toLower)

/-- Lines 184-185: `apply_adjustments = (year == 2025)` — the adjustment
window of this run. -/
def applyAdjustments (year : ℤ) : Bool := year == 2025

/-- Lines 196-200: home/away pitcher names from splitting the `'pitchers'`
field on `' vs '`; both empty when outside the window or when the separator
is absent. -/
def splitVs (s : String) : String × String :=
  match s.splitOn (" vs ") with
  | a :: b :: _ => (a.trim, b.trim)
  | _ => ("", "")

def pitcherNames (g : Game) (adj : Bool) : String × String :=
  if adj then splitVs g.pitchers else ("", "")

/-- Line 235: `home_pitcher_adj = get_pitcher_era_adjustment(home_pitcher) if
apply_adjustments else 0`. -/
def home_pitcher_adj (env : Env) (g : Game) (adj : Bool) : ℤ :=
  if adj then get_pitcher_era_adjustment (env.eraLookup (pitcherNames g adj).1) else 0

/-- Line 236, away side. -/
def away_pitcher_adj (env : Env) (g : Game) (adj : Bool) : ℤ :=
  if adj then get_pitcher_era_adjustment (env.eraLookup (pitcherNames g adj).2) else 0

/-- Line 240: `home_injury_adj = get_injury_penalty(home) if
apply_adjustments else 0` — no note test on the home side. -/
def home_injury_adj (env : Env) (g : Game) (adj : Bool) : ℤ :=
  if adj then get_injury_penalty (env.ilLookup g.home_team) else 0

/-- Line 241: `away_injury_adj = get_injury_penalty(away) - 10 if
apply_adjustments and away.lower() in injury_note else
(get_injury_penalty(away) if apply_adjustments else 0)`. -/
def away_injury_adj (env : Env) (g : Game) (adj : Bool) : ℤ :=
  if adj && strIn g.away_team g.injury_note then
    get_injury_penalty (env.ilLookup g.away_team) - 10
  else if adj then get_injury_penalty (env.ilLookup g.away_team) else 0

/-- Python `round(x, 2)` (the source rounds only display fields with it; no
claim depends on the tie-breaking direction, so round-half-up is used). -/
noncomputable def round2 (x : ℝ) : ℝ := (⌊x * 100 + 1 / 2⌋ : ℝ) / 100

/-- Line 243: `home_elo = ratings.get(home, 1500) + home_pitcher_adj +
home_injury_adj` — the adjusted home rating before home field. -/
noncomputable def preHome (env : Env) (l : Ledger) (g : Game) (adj : Bool) : ℝ :=
  l.get g.home_team + (home_pitcher_adj env g adj : ℝ) + (home_injury_adj env g adj : ℝ)

/-- Line 244, away side. -/
noncomputable def preAway (env : Env) (l : Ledger) (g : Game) (adj : Bool) : ℝ :=
  l.get g.away_team + (away_pitcher_adj env g adj : ℝ) + (away_injury_adj env g adj : ℝ)

/-- Lines 246-256: apply home-field advantage, call `update_elo` on a strict
winner, strip home-field advantage back from the home side; a tie leaves
both pre-update adjusted ratings as they are.  Returns the pair
`(home_elo, away_elo)` that lines 258-259 write into the ratings dict. -/
noncomputable def newPair (env : Env) (l : Ledger) (g : Game) (adj : Bool) : ℝ × ℝ :=
  let home_adj := preHome env l g adj + home_field_advantage
  let away_adj := preAway env l g adj
  if scoreGT g.home_score g.away_score then
    let p := update_elo home_adj away_adj ((optSub g.home_score g.away_score : ℤ) : ℝ)
    (p.1 - home_field_advantage, p.2)
  else if scoreGT g.away_score g.home_score then
    let p := update_elo away_adj home_adj ((optSub g.away_score g.home_score : ℤ) : ℝ)
    (p.2 - home_field_advantage, p.1)
  else (preHome env l g adj, preAway env l g adj)

/-- Lines 184-271 for one dated game: compute adjustments, update, write both
ratings (lines 258-259), and build the `updated_rows` record (lines 261-271),
whose raw fields subtract the per-side deltas from the freshly written
dictionary entries. -/
noncomputable def processDated (env : Env) (l : Ledger) (g : Game) (year : ℤ) :
    Ledger × Row :=
  let adj := applyAdjustments year
  let pair := newPair env l g adj
  let l1 := (l.set g.home_team pair.1).set g.away_team pair.2
  (l1,
   { year := year
     home_team := g.home_team
     away_team := g.away_team
     home_score := g.home_score
     away_score := g.away_score
     home_elo_post_raw :=
       round2 (l1.get g.home_team - (home_pitcher_adj env g adj : ℝ)
         - (home_injury_adj env g adj : ℝ))
     away_elo_post_raw :=
       round2 (l1.get g.away_team - (away_pitcher_adj env g adj : ℝ)
         - (away_injury_adj env g adj : ℝ))
     home_elo_post := round2 pair.1
     away_elo_post := round2 pair.2 })

/-- One iteration of the loop at lines 175-271: a record with a missing or
unparseable date is skipped (`continue`), leaving the ratings dict untouched
and emitting no row. -/
noncomputable def processGame (env : Env) (l : Ledger) (g : Game) :
    Ledger × Option Row :=
  match g.date with
  | none => (l, none)
  | some year =>
    let p := processDated env l g year
    (p.1, some p.2)

/-- The whole loop over the game list, accumulating `updated_rows`. -/
noncomputable def eloLoop (env : Env) (l : Ledger) (gs : List Game) :
    Ledger × List Row :=
  gs.foldl (fun acc g =>
    let s := processGame env acc.1 g
    (s.1, acc.2 ++ s.2.toList)) (l, [])

/-- Line 154: only the current-season frame is restricted to league team
codes before the two frames are concatenated. -/
def filterCurrent (gs : List Game) : List Game :=
  gs.filter (fun g => isLeagueTeam g.home_team && isLeagueTeam g.away_team)

/-- Lines 154-164 of `load_all_games`: historical games unfiltered, current
games filtered to league codes, rows without a date dropped (`dropna`). -/
def load_all_games (hist cur : List Game) : List Game :=
  (hist ++ filterCurrent cur).filter (fun g => g.date.isSome)

/-- Lines 292-293: the league filter built over the result rows.  (The
source discards this frame at line 308, which rebuilds `result_df` from the
unfiltered `updated_rows` before persisting.) -/
def resultFilter (rows : List Row) : List Row :=
  rows.filter (fun r => isLeagueTeam r.home_team && isLeagueTeam r.away_team)

/-- The rating core of `calculate_elo`: initial 1500 ledger, combined input
list, loop; the returned rows are the `updated_rows` that line 308 persists
(unfiltered). -/
noncomputable def calculate_elo (env : Env) (hist cur : List Game) :
    Ledger × List Row :=
  eloLoop env initRatings (load_all_games hist cur)

/-- Environment used by the concrete evaluations: every pitcher resolves to
an ERA of 2 (a +15 adjustment) and every injured-list lookup fails (a 0
penalty). -/
def env1 : Env :=
  { eraLookup := fun _ => EraLookup.found (some 2)
    ilLookup := fun _ => ILLookup.err }

/-- Environment whose injured-list lookups all resolve to a count of 0 and
whose ERA lookups all fail. -/
def env0 : Env :=
  { eraLookup := fun _ => EraLookup.err
    ilLookup := fun _ => ILLookup.found 0 }

/-- A decisive 2025 game with a +15 home and away pitcher adjustment under
`env1`. -/
def g1 : Game :=
  { date := some 2025, home_team := "NYY", away_team := "BOS",
    home_score := some 5, away_score := some 3,
    pitchers := "Gerrit Cole vs Brayan Bello", injury_note := "" }

/-- A tied 2025 game with a +15 pitcher adjustment on both sides under
`env1`. -/
def g2 : Game :=
  { date := some 2025, home_team := "NYY", away_team := "BOS",
    home_score := some 4, away_score := some 4,
    pitchers := "Gerrit Cole vs Brayan Bello", injury_note := "" }

/-- A 2025 game whose note mentions the home team. -/
def g3 : Game :=
  { date := some 2025, home_team := "NYY", away_team := "BOS",
    home_score := some 2, away_score := some 1,
    pitchers := "", injury_note := "Nyy slugger out" }

/-- A dated game with a NaN home score. -/
def g8 : Game :=
  { date := some 2000, home_team := "NYY", away_team := "BOS",
    home_score := none, away_score := some 3,
    pitchers := "", injury_note := "" }

/-- A record with a missing/unparseable date. -/
def gN : Game :=
  { date := none, home_team := "NYY", away_team := "BOS",
    home_score := some 1, away_score := some 0,
    pitchers := "", injury_note := "" }

/-- A historical game naming a team code ("BSN") outside the league set. -/
def gHist : Game :=
  { date := some 2000, home_team := "BSN", away_team := "NYY",
    home_score := some 2, away_score := some 7,
    pitchers := "", injury_note := "" }

/-- A decisive historical game between league teams. -/
def gW : Game :=
  { date := some 2000, home_team := "NYY", away_team := "BOS",
    home_score := some 1, away_score := some 0,
    pitchers := "", injury_note := "" }

/-- A tied historical game between league teams. -/
def gT : Game :=
  { date := some 2000, home_team := "NYY", away_team := "BOS",
    home_score := some 3, away_score := some 3,
    pitchers := "", injury_note := "" }

theorem update_elo_def (r1 r2 d : ℝ) :
    update_elo r1 r2 d =
      (r1 + (base_k * ((|d| + 1) ^ ((0.8 : ℝ)) / (7.5 + 0.006 * |r1 - r2|)))
          * (1 - expected_score r1 r2),
       r2 - (base_k * ((|d| + 1) ^ ((0.8 : ℝ)) / (7.5 + 0.006 * |r1 - r2|)))
          * (1 - expected_score r1 r2)) := rfl

/-- C4: for every single call of `update_elo` on winner-side rating `r1`,
loser-side rating `r2` and any score differential, the winner-side gain
equals the loser-side loss exactly (rating mass is zero-sum). -/
theorem claim_C4_zero_sum (r1 r2 d : ℝ) :
    (update_elo r1 r2 d).1 - r1 = -((update_elo r1 r2 d).2 - r2) := by
  rw [update_elo_def]
  ring

/-- C5: `update_elo w l d` returns exactly
`(w + k * (1 - exp), l - k * (1 - exp))` where
`exp = 1 / (1 + 10 ^ ((l - w) / 400))` and
`k = base_k * (|d| + 1) ^ 0.8 / (7.5 + 0.006 * |w - l|)` with `base_k = 20`. -/
theorem claim_C5_update_formula (w l d : ℝ) :
    base_k = 20 ∧
    update_elo w l d =
      (w + (20 * ((|d| + 1) ^ ((0.8 : ℝ)) / (7.5 + 0.006 * |w - l|)))
          * (1 - 1 / (1 + (10 : ℝ) ^ ((l - w) / 400))),
       l - (20 * ((|d| + 1) ^ ((0.8 : ℝ)) / (7.5 + 0.006 * |w - l|)))
          * (1 - 1 / (1 + (10 : ℝ) ^ ((l - w) / 400)))) := by
  refine ⟨rfl, ?_⟩
  rw [update_elo_def]
  rfl

/-- C10: for every call of `update_elo` with a nonzero score differential, the
margin-of-victory multiplier is strictly positive, the expected score lies
strictly between 0 and 1, and the rating change is strictly toward the
winner-side argument. -/
theorem claim_C10_strict_move (w l d : ℝ) (hd : d ≠ 0) :
    0 < (|d| + 1) ^ ((0.8 : ℝ)) / (7.5 + 0.006 * |w - l|) ∧
    0 < expected_score w l ∧ expected_score w l < 1 ∧
    w < (update_elo w l d).1 ∧ (update_elo w l d).2 < l := by
  have hden : (0 : ℝ) < 7.5 + 0.006 * |w - l| := by positivity
  have hnum : (0 : ℝ) < (|d| + 1) ^ ((0.8 : ℝ)) := by positivity
  have hten : (0 : ℝ) < (10 : ℝ) ^ ((l - w) / 400) :=
    Real.rpow_pos_of_pos (by norm_num) _
  have hexp0 : 0 < expected_score w l := by
    unfold expected_score
    positivity
  have hexp1 : expected_score w l < 1 := by
    unfold expected_score
    rw [div_lt_one (by positivity)]
    linarith
  have hk : 0 < (base_k * ((|d| + 1) ^ ((0.8 : ℝ)) / (7.5 + 0.006 * |w - l|)))
      * (1 - expected_score w l) := by
    have hb : (0 : ℝ) < base_k := by norm_num [base_k]
    have hx : (0 : ℝ) < (|d| + 1) ^ ((0.8 : ℝ)) / (7.5 + 0.006 * |w - l|) :=
      div_pos hnum hden
    exact mul_pos (mul_pos hb hx) (by linarith)
  refine ⟨div_pos hnum hden, hexp0, hexp1, ?_, ?_⟩
  · rw [update_elo_def]
    simpa using hk
  · rw [update_elo_def]
    simp only
    linarith

theorem claim_C10_strict_move_witness :
    (1 : ℝ) ≠ 0 ∧
    (0 < (|(1 : ℝ)| + 1) ^ ((0.8 : ℝ)) / (7.5 + 0.006 * |(1500 : ℝ) - 1500|) ∧
     0 < expected_score 1500 1500 ∧ expected_score 1500 1500 < 1 ∧
     (1500 : ℝ) < (update_elo 1500 1500 1).1 ∧ (update_elo 1500 1500 1).2 < 1500) :=
  ⟨by norm_num, claim_C10_strict_move 1500 1500 1 (by norm_num)⟩

theorem Ledger.get_set_same (l : Ledger) (t : String) (x : ℝ) :
    (Ledger.set l t x).get t = x := by
  induction l with
  | nil => simp [Ledger.set, Ledger.get]
  | cons p ps ih =>
    cases hb : p.1 == t with
    | false => simp [Ledger.set, hb, Ledger.get, ih]
    | true => simp [Ledger.set, hb, Ledger.get]

theorem Ledger.get_set_ne (l : Ledger) (t s : String) (x : ℝ) (h : s ≠ t) :
    (Ledger.set l t x).get s = Ledger.get l s := by
  have ht : (t == s) = false := beq_eq_false_iff_ne.mpr (Ne.symm h)
  induction l with
  | nil => simp [Ledger.set, Ledger.get, ht]
  | cons p ps ih =>
    cases hb : p.1 == t with
    | false => simp [Ledger.set, hb, Ledger.get, ih]
    | true =>
      have hp1 : p.1 = t := eq_of_beq hb
      simp [Ledger.set, hb, Ledger.get, ht, hp1]

theorem Ledger.hasKey_set (l : Ledger) (t s : String) (x : ℝ) :
    (Ledger.set l t x).hasKey s = ((t == s) || Ledger.hasKey l s) := by
  induction l with
  | nil => simp [Ledger.set, Ledger.hasKey]
  | cons p ps ih =>
    cases hb : p.1 == t with
    | false =>
      simp [Ledger.set, hb, Ledger.hasKey, ih, Bool.or_left_comm]
    | true =>
      have hp1 : p.1 = t := eq_of_beq hb
      simp [Ledger.set, hb, Ledger.hasKey, hp1]

theorem initRatings_get_NYY : Ledger.get initRatings ("NYY") = 1500 := by
  simp [initRatings, TEAM_ABBREVS, Ledger.get]

theorem initRatings_get_BOS : Ledger.get initRatings ("BOS") = 1500 := by
  simp [initRatings, TEAM_ABBREVS, Ledger.get]

theorem scoreGT_none_left (b : Option ℤ) : scoreGT none b = false := rfl

theorem scoreGT_none_right (a : Option ℤ) : scoreGT a none = false := by
  cases a <;> rfl

theorem processGame_some (env : Env) (l : Ledger) (g : Game) (y : ℤ)
    (hd : g.date = some y) :
    processGame env l g
      = ((processDated env l g y).1, some (processDated env l g y).2) := by
  unfold processGame
  rw [hd]

theorem processDated_fst (env : Env) (l : Ledger) (g : Game) (year : ℤ) :
    (processDated env l g year).1
      = (Ledger.set (Ledger.set l g.home_team (newPair env l g (applyAdjustments year)).1)
          g.away_team (newPair env l g (applyAdjustments year)).2) := rfl

theorem processDated_raw_home (env : Env) (l : Ledger) (g : Game) (year : ℤ) :
    (processDated env l g year).2.home_elo_post_raw
      = round2 ((Ledger.set (Ledger.set l g.home_team (newPair env l g (applyAdjustments year)).1)
            g.away_team (newPair env l g (applyAdjustments year)).2).get g.home_team
          - (home_pitcher_adj env g (applyAdjustments year) : ℝ)
          - (home_injury_adj env g (applyAdjustments year) : ℝ)) := rfl

theorem processDated_raw_away (env : Env) (l : Ledger) (g : Game) (year : ℤ) :
    (processDated env l g year).2.away_elo_post_raw
      = round2 ((Ledger.set (Ledger.set l g.home_team (newPair env l g (applyAdjustments year)).1)
            g.away_team (newPair env l g (applyAdjustments year)).2).get g.away_team
          - (away_pitcher_adj env g (applyAdjustments year) : ℝ)
          - (away_injury_adj env g (applyAdjustments year) : ℝ)) := rfl

theorem processDated_post_home (env : Env) (l : Ledger) (g : Game) (year : ℤ) :
    (processDated env l g year).2.home_elo_post
      = round2 (newPair env l g (applyAdjustments year)).1 := rfl

theorem processDated_post_away (env : Env) (l : Ledger) (g : Game) (year : ℤ) :
    (processDated env l g year).2.away_elo_post
      = round2 (newPair env l g (applyAdjustments year)).2 := rfl

theorem newPair_tie (env : Env) (l : Ledger) (g : Game) (adj : Bool) (s : ℤ)
    (hh : g.home_score = some s) (ha : g.away_score = some s) :
    newPair env l g adj = (preHome env l g adj, preAway env l g adj) := by
  unfold newPair
  rw [hh, ha]
  simp [scoreGT]

theorem newPair_noneScore (env : Env) (l : Ledger) (g : Game) (adj : Bool)
    (h : g.home_score = none ∨ g.away_score = none) :
    newPair env l g adj = (preHome env l g adj, preAway env l g adj) := by
  unfold newPair
  rcases h with h | h <;> rw [h] <;>
    simp [scoreGT_none_left, scoreGT_none_right]

theorem newPair_homeWin (env : Env) (l : Ledger) (g : Game) (adj : Bool) (a b : ℤ)
    (hh : g.home_score = some a) (ha : g.away_score = some b) (hba : b < a) :
    newPair env l g adj
      = ((update_elo (preHome env l g adj + home_field_advantage) (preAway env l g adj)
            ((a - b : ℤ) : ℝ)).1 - home_field_advantage,
         (update_elo (preHome env l g adj + home_field_advantage) (preAway env l g adj)
            ((a - b : ℤ) : ℝ)).2) := by
  unfold newPair
  rw [hh, ha]
  simp [scoreGT, optSub, hba]

theorem applyAdjustments_false (y : ℤ) (h : y ≠ 2025) :
    applyAdjustments y = false := by
  unfold applyAdjustments
  exact beq_eq_false_iff_ne.mpr h

theorem deltas_false (env : Env) (g : Game) :
    home_pitcher_adj env g false = 0 ∧ away_pitcher_adj env g false = 0 ∧
    home_injury_adj env g false = 0 ∧ away_injury_adj env g false = 0 :=
  ⟨rfl, rfl, rfl, rfl⟩

theorem ledger_after_pass (env : Env) (l : Ledger) (g : Game) (y : ℤ)
    (hd : g.date = some y)
    (hp : newPair env l g (applyAdjustments y)
        = (preHome env l g (applyAdjustments y), preAway env l g (applyAdjustments y)))
    (hne : g.home_team ≠ g.away_team) :
    (processGame env l g).1.get g.home_team = preHome env l g (applyAdjustments y) ∧
    (processGame env l g).1.get g.away_team = preAway env l g (applyAdjustments y) := by
  rw [processGame_some env l g y hd]
  constructor
  · show (processDated env l g y).1.get g.home_team = _
    rw [processDated_fst, hp]
    rw [Ledger.get_set_ne _ _ _ _ hne, Ledger.get_set_same]
  · show (processDated env l g y).1.get g.away_team = _
    rw [processDated_fst, hp]
    rw [Ledger.get_set_same]

theorem ledger_after_homeWin (env : Env) (l : Ledger) (g : Game) (y a b : ℤ)
    (hd : g.date = some y) (hh : g.home_score = some a) (ha : g.away_score = some b)
    (hba : b < a) (hne : g.home_team ≠ g.away_team) :
    (processGame env l g).1.get g.home_team
      = (update_elo (preHome env l g (applyAdjustments y) + home_field_advantage)
          (preAway env l g (applyAdjustments y)) ((a - b : ℤ) : ℝ)).1
        - home_field_advantage := by
  rw [processGame_some env l g y hd]
  show (processDated env l g y).1.get g.home_team = _
  rw [processDated_fst, newPair_homeWin env l g (applyAdjustments y) a b hh ha hba]
  rw [Ledger.get_set_ne _ _ _ _ hne, Ledger.get_set_same]

/-- C7: the pitcher adjustment is +15 for era <= 3, +5 for 3 < era <= 4, 0
for 4 < era < 5 and -10 for era >= 5; a missing era field is treated as 4.5
(hence contributes 0), and an unavailable lookup (empty search or error)
contributes 0. -/
theorem claim_C7_pitcher_table (e : ℚ) :
    ((e ≤ 3 ∧ get_pitcher_era_adjustment (EraLookup.found (some e)) = 15) ∨
     (3 < e ∧ e ≤ 4 ∧ get_pitcher_era_adjustment (EraLookup.found (some e)) = 5) ∨
     (4 < e ∧ e < 5 ∧ get_pitcher_era_adjustment (EraLookup.found (some e)) = 0) ∨
     (5 ≤ e ∧ get_pitcher_era_adjustment (EraLookup.found (some e)) = -10)) ∧
    eraValue none = 4.5 ∧
    get_pitcher_era_adjustment (EraLookup.found none) = 0 ∧
    get_pitcher_era_adjustment EraLookup.notFound = 0 ∧
    get_pitcher_era_adjustment EraLookup.err = 0 := by
  refine ⟨?_, rfl, by norm_num [get_pitcher_era_adjustment, eraValue, eraAdj], rfl, rfl⟩
  rcases le_or_lt e 3 with h3 | h3
  · exact Or.inl ⟨h3, by simp [get_pitcher_era_adjustment, eraValue, eraAdj, h3]⟩
  · rcases le_or_lt e 4 with h4 | h4
    · exact Or.inr (Or.inl ⟨h3, h4, by
        simp [get_pitcher_era_adjustment, eraValue, eraAdj, not_le.mpr h3, h4]⟩)
    · rcases lt_or_le e 5 with h5 | h5
      · exact Or.inr (Or.inr (Or.inl ⟨h4, h5, by
          simp [get_pitcher_era_adjustment, eraValue, eraAdj,
            not_le.mpr h3, not_le.mpr h4, not_le.mpr h5]⟩))
      · exact Or.inr (Or.inr (Or.inr ⟨h5, by
          simp [get_pitcher_era_adjustment, eraValue, eraAdj,
            not_le.mpr h3, not_le.mpr h4, h5]⟩))

/-- C3 (counterexample): a 2025 game whose free-text note references the
home team while the home injured-list count is 0; the claim's symmetric
note rule would give the home side a -10 delta, but the source computes 0
for the home side (the note test exists only on the away side). -/
theorem claim_C3_counterexample :
    strIn g3.home_team g3.injury_note = true ∧
    home_injury_adj env0 g3 true = 0 ∧
    home_injury_adj env0 g3 true ≠ -10 :=
  ⟨by decide, by decide, by decide⟩

/-- C3 (amended): inside the adjustment window the base injury delta of
either side is -10 exactly when that side's injured-list count exceeds 3
(0 otherwise, also on lookup failure); the extra 10 is subtracted only on
the away side and only when the away team's code occurs (case-insensitively)
in the game's note: the home delta never consults the note. -/
theorem claim_C3_injury_policy (env : Env) (g : Game) :
    home_injury_adj env g true = get_injury_penalty (env.ilLookup g.home_team) ∧
    away_injury_adj env g true
      = get_injury_penalty (env.ilLookup g.away_team)
        - (if strIn g.away_team g.injury_note then 10 else 0) ∧
    (∀ n : ℕ, get_injury_penalty (ILLookup.found n) = if 3 < n then -10 else 0) ∧
    get_injury_penalty ILLookup.err = 0 := by
  refine ⟨rfl, ?_, fun n => rfl, rfl⟩
  cases hs : strIn g.away_team g.injury_note
  · simp [away_injury_adj, hs]
  · simp [away_injury_adj, hs]

/-- C6: for a game dated outside the adjustment window all four pitcher and
injury deltas are 0, and in the emitted row the raw post-rating equals the
adjusted post-rating on both sides. -/
theorem claim_C6_outside_window (env : Env) (l : Ledger) (g : Game) (y : ℤ)
    (hd : g.date = some y) (hy : y ≠ 2025) (hne : g.home_team ≠ g.away_team) :
    home_pitcher_adj env g (applyAdjustments y) = 0 ∧
    away_pitcher_adj env g (applyAdjustments y) = 0 ∧
    home_injury_adj env g (applyAdjustments y) = 0 ∧
    away_injury_adj env g (applyAdjustments y) = 0 ∧
    ∃ r, (processGame env l g).2 = some r ∧
      r.home_elo_post_raw = r.home_elo_post ∧
      r.away_elo_post_raw = r.away_elo_post := by
  have hf : applyAdjustments y = false := applyAdjustments_false y hy
  obtain ⟨d1, d2, d3, d4⟩ := deltas_false env g
  rw [hf]
  refine ⟨d1, d2, d3, d4, (processDated env l g y).2, ?_, ?_, ?_⟩
  · rw [processGame_some env l g y hd]
  · rw [processDated_raw_home, processDated_post_home, hf, d1, d3]
    rw [Ledger.get_set_ne _ _ _ _ hne, Ledger.get_set_same]
    norm_num
  · rw [processDated_raw_away, processDated_post_away, hf, d2, d4]
    rw [Ledger.get_set_same]
    norm_num

theorem claim_C6_outside_window_witness :
    (2000 : ℤ) ≠ 2025 ∧ gW.home_team ≠ gW.away_team ∧
    (home_pitcher_adj env1 gW (applyAdjustments 2000) = 0 ∧
     away_pitcher_adj env1 gW (applyAdjustments 2000) = 0 ∧
     home_injury_adj env1 gW (applyAdjustments 2000) = 0 ∧
     away_injury_adj env1 gW (applyAdjustments 2000) = 0 ∧
     ∃ r, (processGame env1 initRatings gW).2 = some r ∧
       r.home_elo_post_raw = r.home_elo_post ∧
       r.away_elo_post_raw = r.away_elo_post) :=
  ⟨by decide, by decide,
   claim_C6_outside_window env1 initRatings gW 2000 rfl (by decide) (by decide)⟩

/-- C2 (counterexample): a tied 2025 game with a +15 home pitcher delta; the
ratings-dict entry of the home team changes across the game, because lines
258-259 write back the adjusted (delta-laden) values even on the tie path. -/
theorem claim_C2_counterexample :
    g2.home_score = g2.away_score ∧
    (processGame env1 initRatings g2).1.get g2.home_team
      ≠ initRatings.get g2.home_team := by
  refine ⟨rfl, ?_⟩
  have hp := newPair_tie env1 initRatings g2 (applyAdjustments 2025) 4 rfl rfl
  have hl := ledger_after_pass env1 initRatings g2 2025 rfl hp (by decide)
  rw [hl.1]
  have h15 : home_pitcher_adj env1 g2 (applyAdjustments 2025) = 15 := by decide
  have h0 : home_injury_adj env1 g2 (applyAdjustments 2025) = 0 := by decide
  unfold preHome
  rw [h15, h0]
  have hteam : g2.home_team = ("NYY" : String) := rfl
  rw [hteam, initRatings_get_NYY]
  norm_num

/-- C2 (amended): on a tie `update_elo` is not invoked — the adjusted ratings
pass through unchanged into the ledger write and the emitted row — so each
side's new ledger entry equals its pre-game entry plus that side's pitcher
and injury deltas; in particular the ledger is unchanged whenever those
deltas are 0 (always the case outside the adjustment window). -/
theorem claim_C2_tie_passthrough (env : Env) (l : Ledger) (g : Game) (y s : ℤ)
    (hd : g.date = some y) (hh : g.home_score = some s) (ha : g.away_score = some s)
    (hne : g.home_team ≠ g.away_team) :
    (processGame env l g).1.get g.home_team
      = l.get g.home_team + (home_pitcher_adj env g (applyAdjustments y) : ℝ)
        + (home_injury_adj env g (applyAdjustments y) : ℝ) ∧
    (processGame env l g).1.get g.away_team
      = l.get g.away_team + (away_pitcher_adj env g (applyAdjustments y) : ℝ)
        + (away_injury_adj env g (applyAdjustments y) : ℝ) ∧
    (applyAdjustments y = false →
      (processGame env l g).1.get g.home_team = l.get g.home_team ∧
      (processGame env l g).1.get g.away_team = l.get g.away_team) ∧
    ∃ r, (processGame env l g).2 = some r ∧
      r.home_elo_post = round2 ((processGame env l g).1.get g.home_team) ∧
      r.away_elo_post = round2 ((processGame env l g).1.get g.away_team) := by
  have hp := newPair_tie env l g (applyAdjustments y) s hh ha
  have hl := ledger_after_pass env l g y hd hp hne
  obtain ⟨d1, d2, d3, d4⟩ := deltas_false env g
  refine ⟨hl.1, hl.2, ?_, (processDated env l g y).2, ?_, ?_, ?_⟩
  · intro hf
    constructor
    · rw [hl.1, hf]
      simp [preHome, d1, d3]
    · rw [hl.2, hf]
      simp [preAway, d2, d4]
  · rw [processGame_some env l g y hd]
  · rw [processDated_post_home, hp, hl.1]
  · rw [processDated_post_away, hp, hl.2]

theorem claim_C2_tie_passthrough_witness :
    gT.home_team ≠ gT.away_team ∧
    ((processGame env1 initRatings gT).1.get gT.home_team
      = initRatings.get gT.home_team
        + (home_pitcher_adj env1 gT (applyAdjustments 2000) : ℝ)
        + (home_injury_adj env1 gT (applyAdjustments 2000) : ℝ) ∧
     (processGame env1 initRatings gT).1.get gT.away_team
      = initRatings.get gT.away_team
        + (away_pitcher_adj env1 gT (applyAdjustments 2000) : ℝ)
        + (away_injury_adj env1 gT (applyAdjustments 2000) : ℝ) ∧
     (applyAdjustments 2000 = false →
       (processGame env1 initRatings gT).1.get gT.home_team
         = initRatings.get gT.home_team ∧
       (processGame env1 initRatings gT).1.get gT.away_team
         = initRatings.get gT.away_team) ∧
     ∃ r, (processGame env1 initRatings gT).2 = some r ∧
       r.home_elo_post = round2 ((processGame env1 initRatings gT).1.get gT.home_team) ∧
       r.away_elo_post = round2 ((processGame env1 initRatings gT).1.get gT.away_team)) :=
  ⟨by decide,
   claim_C2_tie_passthrough env1 initRatings gT 2000 3 rfl rfl rfl (by decide)⟩

/-- C1: the ratings-dict write of a processed decisive game does NOT equal
the pre-game raw rating plus the `update_elo` change — only the home-field
constant is subtracted back; the per-side pitcher and injury deltas stay in
the written value.  At `g1` (home pitcher delta +15, pre-game raw 1500,
adjusted pair (1550, 1515), score differential 2) the ledger receives
`1500 + 15 + change`, not the claimed `1500 + change`. -/
theorem claim_C1_ledger_absorbs_overlays :
    (processGame env1 initRatings g1).1.get g1.home_team
      = 1500 + 15 + ((update_elo 1550 1515 2).1 - 1550) ∧
    (processGame env1 initRatings g1).1.get g1.home_team
      ≠ 1500 + ((update_elo 1550 1515 2).1 - 1550) := by
  have hw := ledger_after_homeWin env1 initRatings g1 2025 5 3 rfl rfl rfl
    (by norm_num) (by decide)
  have h15 : home_pitcher_adj env1 g1 (applyAdjustments 2025) = 15 := by decide
  have h0 : home_injury_adj env1 g1 (applyAdjustments 2025) = 0 := by decide
  have h15a : away_pitcher_adj env1 g1 (applyAdjustments 2025) = 15 := by decide
  have h0a : away_injury_adj env1 g1 (applyAdjustments 2025) = 0 := by decide
  have hph : preHome env1 initRatings g1 (applyAdjustments 2025) = 1515 := by
    unfold preHome
    rw [h15, h0]
    have hteam : g1.home_team = ("NYY" : String) := rfl
    rw [hteam, initRatings_get_NYY]
    norm_num
  have hpa : preAway env1 initRatings g1 (applyAdjustments 2025) = 1515 := by
    unfold preAway
    rw [h15a, h0a]
    have hteam : g1.away_team = ("BOS" : String) := rfl
    rw [hteam, initRatings_get_BOS]
    norm_num
  rw [hph, hpa] at hw
  norm_num [home_field_advantage] at hw
  constructor
  · rw [hw]
    ring
  · rw [hw]
    intro hc
    have h35 : home_field_advantage = (35 : ℝ) := rfl
    nlinarith [hc]

/-- C8 (counterexample): a game record with a NaN home score is not skipped:
the loop emits a result row for it (both score comparisons are false, so it
is processed through the tie path), and no skip counter exists anywhere in
the source. -/
theorem claim_C8_counterexample :
    g8.home_score = none ∧
    (processGame env1 initRatings g8).2.isSome = true ∧
    (eloLoop env1 initRatings [g8]).2.length = 1 := by
  refine ⟨rfl, ?_, ?_⟩
  · rw [processGame_some env1 initRatings g8 2000 rfl]
    rfl
  · simp [eloLoop, processGame_some env1 initRatings g8 2000 rfl]

/-- C8 (amended): a record with a missing/unparseable date is skipped by the
loop, leaving the ledger untouched and emitting no row, without aborting the
run; a record with a NaN score is NOT skipped — it is processed through the
tie path and emits a row — and it leaves both named teams' ledger entries
unchanged only when the per-side deltas are 0 (always outside the adjustment
window).  The source keeps no skip count. -/
theorem claim_C8_malformed_records (env : Env) (l : Ledger) (g : Game) :
    (g.date = none → processGame env l g = (l, none)) ∧
    (∀ y : ℤ, g.date = some y → g.home_score = none ∨ g.away_score = none →
      (processGame env l g).2.isSome = true ∧
      (applyAdjustments y = false → g.home_team ≠ g.away_team →
        (processGame env l g).1.get g.home_team = l.get g.home_team ∧
        (processGame env l g).1.get g.away_team = l.get g.away_team)) := by
  constructor
  · intro hd
    unfold processGame
    rw [hd]
  · intro y hd hsc
    have hp := newPair_noneScore env l g (applyAdjustments y) hsc
    obtain ⟨d1, d2, d3, d4⟩ := deltas_false env g
    constructor
    · rw [processGame_some env l g y hd]
      rfl
    · intro hf hne
      have hl := ledger_after_pass env l g y hd hp hne
      constructor
      · rw [hl.1, hf]
        simp [preHome, d1, d3]
      · rw [hl.2, hf]
        simp [preAway, d2, d4]

theorem claim_C8_malformed_records_witness :
    (processGame env1 initRatings gN = (initRatings, none)) ∧
    ((processGame env1 initRatings g8).2.isSome = true ∧
     (applyAdjustments 2000 = false → g8.home_team ≠ g8.away_team →
       (processGame env1 initRatings g8).1.get g8.home_team
         = initRatings.get g8.home_team ∧
       (processGame env1 initRatings g8).1.get g8.away_team
         = initRatings.get g8.away_team)) :=
  ⟨(claim_C8_malformed_records env1 initRatings gN).1 rfl,
   (claim_C8_malformed_records env1 initRatings g8).2 2000 rfl (Or.inl rfl)⟩

/-- C9 (counterexample): the historical game `gHist` names the non-league
code "BSN"; it is not skipped — the run processes it, the ratings dict gains
a "BSN" entry it did not have, and its row reaches the persisted
`updated_rows`. -/
theorem claim_C9_counterexample :
    isLeagueTeam ("BSN") = false ∧
    initRatings.hasKey ("BSN") = false ∧
    (calculate_elo env1 [gHist] []).1.hasKey ("BSN") = true ∧
    (calculate_elo env1 [gHist] []).2.length = 1 := by
  refine ⟨by decide, ?_, ?_, ?_⟩
  · simp [initRatings, TEAM_ABBREVS, Ledger.hasKey]
  · have h : (calculate_elo env1 [gHist] []).1
        = (processGame env1 initRatings gHist).1 := by
      simp [calculate_elo, load_all_games, filterCurrent, eloLoop, gHist]
    rw [h, processGame_some env1 initRatings gHist 2000 rfl]
    show (processDated env1 initRatings gHist 2000).1.hasKey ("BSN") = true
    rw [processDated_fst]
    simp [Ledger.hasKey_set, gHist]
  · have h : (calculate_elo env1 [gHist] []).2
        = (processGame env1 initRatings gHist).2.toList := by
      simp [calculate_elo, load_all_games, filterCurrent, eloLoop, gHist]
    rw [h, processGame_some env1 initRatings gHist 2000 rfl]
    rfl

/-- C9 (amended): only the current-season frame is restricted to the league
set before processing (a current-season record survives the filter exactly
when both codes are league codes); any dated record that reaches the loop is
processed regardless of its team codes — it emits a row, and after it both
named teams (league or not) have entries in the ratings dict. -/
theorem claim_C9_unknown_team (gs : List Game) (g : Game) :
    (g ∈ filterCurrent gs
      ↔ g ∈ gs ∧ isLeagueTeam g.home_team = true ∧ isLeagueTeam g.away_team = true) ∧
    (∀ env : Env, ∀ l : Ledger, ∀ y : ℤ, g.date = some y →
      (processGame env l g).2.isSome = true ∧
      (processGame env l g).1.hasKey g.home_team = true ∧
      (processGame env l g).1.hasKey g.away_team = true) := by
  constructor
  · simp [filterCurrent, List.mem_filter, Bool.and_eq_true, and_assoc]
  · intro env l y hd
    refine ⟨?_, ?_, ?_⟩
    · rw [processGame_some env l g y hd]
      rfl
    · rw [processGame_some env l g y hd]
      show (processDated env l g y).1.hasKey g.home_team = true
      rw [processDated_fst]
      simp [Ledger.hasKey_set]
    · rw [processGame_some env l g y hd]
      show (processDated env l g y).1.hasKey g.away_team = true
      rw [processDated_fst]
      simp [Ledger.hasKey_set]

theorem claim_C9_unknown_team_witness :
    (gW ∈ filterCurrent [gW]
      ↔ gW ∈ [gW] ∧ isLeagueTeam gW.home_team = true ∧ isLeagueTeam gW.away_team = true) ∧
    ((processGame env1 initRatings gW).2.isSome = true ∧
     (processGame env1 initRatings gW).1.hasKey gW.home_team = true ∧
     (processGame env1 initRatings gW).1.hasKey gW.away_team = true) :=
  ⟨(claim_C9_unknown_team [gW] gW).1,
   (claim_C9_unknown_team [gW] gW).2 env1 initRatings 2000 rfl⟩
